import Mathlib

/-!
Shallow embedding of `src/Arduino/ldr_client_1/ldr_client_1.ino`, the single
firmware source of the LDR (light-dependent resistor) IoT client, together with
theorems settling the specification claims about it.

Modelling conventions:
* C++ `unsigned long` (32-bit on the ESP32 target) is modelled as `Nat` with
  explicit reduction modulo `2^32` wherever the source relies on wraparound.
* C++ `int` / `long` (both 32-bit) are modelled as `Int`; the source's
  arithmetic on them stays far from the 32-bit boundary on all inputs the
  claims touch, and signed overflow is undefined behaviour in the source, so
  the model uses unbounded integers and agrees with every defined execution.
* Side effects (network calls, delays, serial error logs) are reified as an
  explicit trace of `Effect` values returned alongside the new state.
* External collaborators (the MQTT client's connection outcome, pending
  inbound messages dispatched by `client.loop()`, and the ADC reading returned
  by `analogRead`) are supplied as explicit inputs in an `Env` record.
-/

namespace LdrClient

/-! ### Compile-time constants (lines 11-33 of the source) -/

def SAMPLING_PERIOD_TOPIC : String := "home/ldr1/sampling_period"

def POSITION_TOPIC : String := "home/ldr1/position"

def COAP_URL : String := "ldrData1"

/-- `const unsigned long mqttUpdateInterval = 1000;` (line 33). -/
def mqttUpdateInterval : Nat := 1000

/-! ### Configuration State (lines 26-27) -/

/-- The two mutable runtime parameters: `int sampling_period = 5000;` and
`String position = "kitchen";`. -/
structure ConfigState where
  sampling_period : Int
  position : String
  deriving Repr, DecidableEq

/-- Initial configuration at boot (lines 26-27). -/
def initConfig : ConfigState := { sampling_period := 5000, position := "kitchen" }

/-! ### Arduino `String::toInt` (used at line 71)

`String::toInt` calls C `atol`: skip leading whitespace, an optional sign,
then consume decimal digits up to the first non-digit; with no digits the
result is `0`. -/

/-- Accumulate leading decimal digits, stopping at the first non-digit
(the accumulator semantics of `atol`'s digit loop). -/
def digitsAcc : List Char → Int → Int
  | c :: cs, acc =>
      if c.isDigit then digitsAcc cs (acc * 10 + ((c.toNat : Int) - 48)) else acc
  | [], acc => acc

/-- Characters accepted by C `isspace` in the default locale. -/
def isCSpace (c : Char) : Bool :=
  c = ' ' ∨ c = '\t' ∨ c = '\n' ∨ c = '\x0b' ∨ c = '\x0c' ∨ c = '\r'

/-- `atol` semantics: leading whitespace, optional sign, leading digits;
`0` when no digits are found.  This is what `String::toInt` returns. -/
def stringToInt (s : String) : Int :=
  match s.toList.dropWhile isCSpace with
  | '-' :: rest => - digitsAcc rest 0
  | '+' :: rest => digitsAcc rest 0
  | rest => digitsAcc rest 0

/-! ### Control-message handler `mqtt_callback` (lines 61-84) -/

/-- `mqtt_callback(topic, payload, length)` as a pure state transformer on the
Configuration State.  The source NUL-terminates the payload and wraps it in a
`String`, which we model by taking the message text directly.  On the
sampling-period topic it computes `message.toInt() * 1000` and stores it when
it differs from the current value; on the position topic it stores the text
verbatim when it differs; any other topic is a no-op. -/
def mqtt_callback (topic : String) (message : String) (st : ConfigState) : ConfigState :=
  if topic = SAMPLING_PERIOD_TOPIC then
    let new_sampling_period : Int := stringToInt message * 1000
    if new_sampling_period ≠ st.sampling_period then
      { st with sampling_period := new_sampling_period }
    else st
  else if topic = POSITION_TOPIC then
    if message ≠ st.position then { st with position := message } else st
  else st

/-! ### Arduino `map` and the payload formatting (lines 36-58) -/

/-- C++ integer division truncates toward zero (`Int.tdiv`). -/
def cppDiv (a b : Int) : Int := Int.tdiv a b

/-- Arduino `map(x, in_min, in_max, out_min, out_max)`:
`(x - in_min) * (out_max - out_min) / (in_max - in_min) + out_min`
in `long` arithmetic with truncating division. -/
def map (x in_min in_max out_min out_max : Int) : Int :=
  cppDiv ((x - in_min) * (out_max - out_min)) (in_max - in_min) + out_min

/-- `snprintf(ldr_str, 10, "%d", n)`: decimal rendering of `n`, truncated to
at most 9 characters by the 10-byte buffer (the tenth byte holds the NUL). -/
def ldr_str (n : Int) : String := (toString n).take 9

/-- Line 44: `"sensor_id=" + sensor_id + "&location=" + sensor_position +
"&data=" + ldr_str`. -/
def buildPayload (sensor_id sensor_position : String) (n : Int) : String :=
  "sensor_id=" ++ sensor_id ++ "&location=" ++ sensor_position ++ "&data=" ++ ldr_str n

/-! ### Effect traces -/

/-- Observable side effects of one scheduler step, in program order.
Serial progress logs are omitted; the sensor-read error log is kept because it
marks the skipped-publish branch. -/
inductive Effect where
  | connectAttempt : Effect
  | delayMs : Nat → Effect
  | subscribeCall : String → Effect
  | mqttLoopCall : Effect
  | coapPut : String → String → Effect
  | logErr : String → Effect
  deriving Repr, DecidableEq

/-- `isnan(ldr_value)` where `ldr_value` is an `int` (line 38): the argument
is converted to `double`, and every 32-bit integer converts to a finite
(non-NaN) double, so the predicate is identically false. -/
def isnanOfInt (_x : Int) : Bool := false

/-- `sendCoapData(sensor_id, sensor_position)` (lines 36-58), with the
`analogRead(ldr_pin)` result supplied as `ldr_value`.  Returns the effect
trace: either the single CoAP PUT of the formatted payload, or (in the dead
branch) the sensor-read error log. -/
def sendCoapData (ldr_value : Int) (sensor_id sensor_position : String) : List Effect :=
  if ¬ isnanOfInt ldr_value then
    let normalized_ldr_value := map ldr_value 0 4095 0 100
    [Effect.coapPut COAP_URL (buildPayload sensor_id sensor_position normalized_ldr_value)]
  else
    [Effect.logErr "Failed to read LDR"]

/-! ### Reconnection routine `reconnect` (lines 86-106)

The MQTT transport is abstracted by a list of `Attempt` outcomes, one per
iteration of the `while (!client.connected())` loop: whether
`client.connect("LDR1", ...)` succeeds and, if so, whether each
`client.subscribe(...)` call succeeds.  An exhausted outcome list models a run
still inside the retry loop, so `reconnect` returns `none` there: the routine
itself never gives up. -/

/-- Outcome of one iteration of the reconnect loop, as answered by the
transport. -/
structure Attempt where
  connectOk : Bool
  sub1 : Bool
  sub2 : Bool
  deriving Repr, DecidableEq

/-- Connection state of the control-channel client. -/
inductive ConnState where
  | Disconnected : ConnState
  | Connected : ConnState
  deriving Repr, DecidableEq

/-- Effects of the success branch of one connect attempt: the connect call,
then `client.subscribe(SAMPLING_PERIOD_TOPIC) && client.subscribe(POSITION_TOPIC)`;
`&&` short-circuits, so the second subscribe happens only if the first
succeeded.  Subscription failure only changes the log line. -/
def attemptSuccessEffects (a : Attempt) : List Effect :=
  Effect.connectAttempt :: Effect.subscribeCall SAMPLING_PERIOD_TOPIC ::
    (if a.sub1 then [Effect.subscribeCall POSITION_TOPIC] else [])

/-- `reconnect()` (lines 86-106), entered with the client disconnected:
attempt a connect; on failure log, `delay(5000)` and retry; on success
subscribe to both topics (failure logged only) and fall out of the loop
connected. -/
def reconnect : List Attempt → Option (List Effect × ConnState)
  | [] => none
  | a :: rest =>
      if a.connectOk then
        some (attemptSuccessEffects a, ConnState.Connected)
      else
        match reconnect rest with
        | some (effs, s) =>
            some (Effect.connectAttempt :: Effect.delayMs 5000 :: effs, s)
        | none => none

/-- Number of `delayMs` effects in a trace. -/
def countDelays (effs : List Effect) : Nat :=
  effs.countP (fun e => match e with | Effect.delayMs _ => true | _ => false)

/-- Number of failed connect attempts before the first successful one. -/
def failuresBefore : List Attempt → Nat
  | [] => 0
  | a :: rest => if a.connectOk then 0 else failuresBefore rest + 1

/-! ### Scheduler step `loop` (lines 136-153) -/

/-- Wraparound subtraction on the 32-bit unsigned ring:
`a - b` as computed on `unsigned long` operands. -/
def wsub (a b : Nat) : Nat := (a % 2 ^ 32 + 2 ^ 32 - b % 2 ^ 32) % 2 ^ 32

/-- C++ conversion of a (32-bit) signed value to `unsigned long`:
reduction modulo `2^32`.  This happens to `sampling_period` (an `int`) on the
right of `currentTime - lastSamplingTime >= sampling_period` by the usual
arithmetic conversions. -/
def toU32 (i : Int) : Nat := (i % (2 ^ 32 : Int)).toNat

/-- The guard `currentTime - lastMQTTTime >= mqttUpdateInterval` (line 140):
all operands are `unsigned long`, so it is an unsigned comparison of the
wraparound difference against the interval. -/
def mqttDue (currentTime lastMQTTTime : Nat) : Bool :=
  decide (mqttUpdateInterval ≤ wsub currentTime lastMQTTTime)

/-- The guard `currentTime - lastSamplingTime >= sampling_period` (line 149):
the `int` right operand is converted to `unsigned long`, so this too is an
unsigned comparison of the wraparound difference. -/
def samplingDue (currentTime lastSamplingTime : Nat) (sampling_period : Int) : Bool :=
  decide (toU32 sampling_period ≤ wsub currentTime lastSamplingTime)

/-- Scheduler-owned mutable globals: the Configuration State plus the two
last-run timestamps (lines 26-27, 31-32). -/
structure DeviceState where
  config : ConfigState
  lastSamplingTime : Nat
  lastMQTTTime : Nat
  deriving Repr, DecidableEq

/-- Initial device state at boot (lines 26-32). -/
def initDevice : DeviceState :=
  { config := initConfig, lastSamplingTime := 0, lastMQTTTime := 0 }

/-- An inbound MQTT message: topic and payload. -/
structure Msg where
  topic : String
  payload : String
  deriving Repr, DecidableEq

/-- `client.loop()` dispatches each pending inbound message through
`mqtt_callback`, updating the Configuration State. -/
def processPending (pending : List Msg) (cfg : ConfigState) : ConfigState :=
  pending.foldl (fun c m => mqtt_callback m.topic m.payload c) cfg

/-- External collaborators queried during one scheduler step: the
`client.connected()` answer, the connect/subscribe outcomes consumed if
`reconnect()` runs, the messages `client.loop()` delivers, and the
`analogRead` value. -/
structure Env where
  connected : Bool
  outcomes : List Attempt
  pending : List Msg
  ldrReading : Int
  deriving Repr, DecidableEq

/-- Body of the MQTT branch (lines 143-146): reconnect if disconnected, then
`client.loop()`.  `none` models being stuck in the reconnect loop. -/
def serviceMQTT (env : Env) (cfg : ConfigState) : Option (List Effect × ConfigState) :=
  if env.connected then
    some ([Effect.mqttLoopCall], processPending env.pending cfg)
  else
    match reconnect env.outcomes with
    | some (effs, _) =>
        some (effs ++ [Effect.mqttLoopCall], processPending env.pending cfg)
    | none => none

/-- One iteration of `loop()` (lines 136-153): read `millis()` once into
`currentTime`, run the MQTT duty if its interval elapsed, then run the
sampling duty if its interval elapsed — the sampling guard reads
`sampling_period` as left by the MQTT duty of this very step. -/
def loopStep (env : Env) (currentTime : Nat) (st : DeviceState) :
    Option (DeviceState × List Effect) :=
  let mqttStage : Option (DeviceState × List Effect) :=
    if mqttDue currentTime st.lastMQTTTime then
      (serviceMQTT env st.config).map
        (fun r => ({ st with lastMQTTTime := currentTime, config := r.2 }, r.1))
    else
      some (st, [])
  match mqttStage with
  | none => none
  | some (st1, effs1) =>
      if samplingDue currentTime st1.lastSamplingTime st1.config.sampling_period then
        some ({ st1 with lastSamplingTime := currentTime },
              effs1 ++ sendCoapData env.ldrReading "1" st1.config.position)
      else
        some (st1, effs1)

/-! ## Theorems settling the claims -/

/-- C1: the claim says a non-numeric payload on the sampling-period topic
leaves `sampling_interval` unchanged at its prior valid value.  The code does
the opposite: `String::toInt` yields `0` on the non-numeric payload `"abc"`,
`0 * 1000 = 0` differs from the prior value `5000`, so the handler overwrites
`sampling_period` with `0`.  This theorem evaluates the handler at that
failing input. -/
theorem C1_nonnumeric_payload_overwrites_interval :
    initConfig.sampling_period = 5000 ∧
    (mqtt_callback SAMPLING_PERIOD_TOPIC "abc" initConfig).sampling_period = 0 := by
  decide

/-- C2: the claim says `sampling_interval` stays strictly positive under every
handler invocation because non-positive requests are rejected or clamped.  The
code has no such guard: payload `"0"` parses to `0`, is accepted, and leaves
the Configuration State with `sampling_period = 0`, violating the claimed
invariant after a single invocation from the positive default. -/
theorem C2_zero_payload_accepted :
    (mqtt_callback SAMPLING_PERIOD_TOPIC "0" initConfig).sampling_period = 0 ∧
    ¬ 0 < (mqtt_callback SAMPLING_PERIOD_TOPIC "0" initConfig).sampling_period := by
  decide

/-- C3: round-trip through the control-message handler.  From any prior
Configuration State, payload `"5"` on the cadence topic leaves
`sampling_period = 5 * 1000` (five seconds in the internal millisecond unit),
and payload `"bedroom"` on the position topic leaves `position = "bedroom"`. -/
theorem C3_control_roundtrip (st : ConfigState) :
    (mqtt_callback SAMPLING_PERIOD_TOPIC "5" st).sampling_period = 5 * 1000 ∧
    (mqtt_callback POSITION_TOPIC "bedroom" st).position = "bedroom" := by
  have h5 : stringToInt "5" = 5 := by decide
  constructor
  · unfold mqtt_callback
    rw [if_pos rfl]
    simp only [h5]
    split
    · rfl
    · next h =>
      push_neg at h
      omega
  · unfold mqtt_callback
    rw [if_neg (by decide), if_pos rfl]
    split
    · rfl
    · next h =>
      push_neg at h
      exact h.symm

/-- Witness for C3 at the boot-time Configuration State. -/
theorem C3_control_roundtrip_witness :
    (mqtt_callback SAMPLING_PERIOD_TOPIC "5" initConfig).sampling_period = 5 * 1000 ∧
    (mqtt_callback POSITION_TOPIC "bedroom" initConfig).position = "bedroom" :=
  C3_control_roundtrip initConfig

/-- C4: when neither elapsed-interval guard holds at the current tick, one
scheduler step is a no-op: the effect trace is empty (no network calls, no
delays) and the device state — both last-run timestamps included — is
returned unchanged. -/
theorem C4_idle_step_no_effects (env : Env) (currentTime : Nat) (st : DeviceState)
    (hm : mqttDue currentTime st.lastMQTTTime = false)
    (hs : samplingDue currentTime st.lastSamplingTime st.config.sampling_period = false) :
    loopStep env currentTime st = some (st, []) := by
  simp [loopStep, hm, hs]

/-- Witness for C4: 500 ticks after boot neither the 1000-tick MQTT interval
nor the 5000-tick sampling interval has elapsed, and the step does nothing. -/
theorem C4_idle_step_no_effects_witness :
    mqttDue 500 initDevice.lastMQTTTime = false ∧
    samplingDue 500 initDevice.lastSamplingTime initDevice.config.sampling_period = false ∧
    loopStep { connected := true, outcomes := [], pending := [], ldrReading := 0 }
      500 initDevice = some (initDevice, []) :=
  ⟨by decide, by decide,
    C4_idle_step_no_effects
      { connected := true, outcomes := [], pending := [], ldrReading := 0 }
      500 initDevice (by decide) (by decide)⟩

/-- C5: the scheduler step consumes a single clock reading `currentTime`, and
when both guards hold at that reading both duties run in the same step: the
resulting trace is the control-channel service effects followed by the data
publish, and both last-run timestamps are set to that same single reading. -/
theorem C5_both_due_control_first (env : Env) (currentTime : Nat) (st : DeviceState)
    (controlEffects : List Effect) (cfg' : ConfigState)
    (hm : mqttDue currentTime st.lastMQTTTime = true)
    (hsvc : serviceMQTT env st.config = some (controlEffects, cfg'))
    (hs : samplingDue currentTime st.lastSamplingTime cfg'.sampling_period = true) :
    loopStep env currentTime st =
      some ({ config := cfg', lastSamplingTime := currentTime, lastMQTTTime := currentTime },
            controlEffects ++ sendCoapData env.ldrReading "1" cfg'.position) := by
  simp [loopStep, hm, hsvc, hs]

/-- Witness for C5: at tick 6000 from boot both intervals have elapsed; the
step services the control channel, then publishes, stamping both records with
tick 6000. -/
theorem C5_both_due_control_first_witness :
    loopStep { connected := true, outcomes := [], pending := [], ldrReading := 1000 }
      6000 initDevice =
      some ({ config := initConfig, lastSamplingTime := 6000, lastMQTTTime := 6000 },
            [Effect.mqttLoopCall] ++ sendCoapData 1000 "1" initConfig.position) :=
  C5_both_due_control_first
    { connected := true, outcomes := [], pending := [], ldrReading := 1000 }
    6000 initDevice [Effect.mqttLoopCall] initConfig
    (by decide) (by decide) (by decide)

/-- C6: both scheduler guards compute the elapsed time as the modulo-`2^32`
unsigned difference of the current tick and the last-run timestamp and compare
it against the (unsigned-converted) interval.  Whenever the true elapsed time
is below `2^32`, the computed difference equals it exactly — even across a
clock wraparound — so each guard fires precisely when the elapsed time reaches
its interval. -/
theorem C6_wraparound_safe_comparisons (lastRun elapsed : Nat) (p : Int)
    (h1 : lastRun < 2 ^ 32) (h2 : elapsed < 2 ^ 32) :
    wsub ((lastRun + elapsed) % 2 ^ 32) lastRun = elapsed ∧
    mqttDue ((lastRun + elapsed) % 2 ^ 32) lastRun = decide (mqttUpdateInterval ≤ elapsed) ∧
    samplingDue ((lastRun + elapsed) % 2 ^ 32) lastRun p = decide (toU32 p ≤ elapsed) := by
  have hw : wsub ((lastRun + elapsed) % 2 ^ 32) lastRun = elapsed := by
    have hpow : (2 : Nat) ^ 32 = 4294967296 := by norm_num
    unfold wsub
    rw [hpow] at h1 h2 ⊢
    omega
  refine ⟨hw, ?_, ?_⟩
  · unfold mqttDue
    rw [hw]
  · unfold samplingDue
    rw [hw]

/-- Witness for C6 across an actual wraparound: the last run is 500 ticks
before the `2^32` rollover and 1500 ticks have elapsed, so the current tick
has wrapped to 1000; the unsigned difference still reads 1500 and both guards
fire for their 1000-tick intervals. -/
theorem C6_wraparound_safe_comparisons_witness :
    wsub ((2 ^ 32 - 500 + 1500) % 2 ^ 32) (2 ^ 32 - 500) = 1500 ∧
    mqttDue ((2 ^ 32 - 500 + 1500) % 2 ^ 32) (2 ^ 32 - 500) =
      decide (mqttUpdateInterval ≤ 1500) ∧
    samplingDue ((2 ^ 32 - 500 + 1500) % 2 ^ 32) (2 ^ 32 - 500) 1000 =
      decide (toU32 1000 ≤ 1500) :=
  C6_wraparound_safe_comparisons (2 ^ 32 - 500) 1500 1000 (by decide) (by decide)

/-- C7: `isnan` applied to the `int` returned by `analogRead` is false for
every value (an integer converts to a finite double), so the error branch of
`sendCoapData` is unreachable: every invocation produces exactly the CoAP PUT
of the formatted payload and never the sensor-read error log. -/
theorem C7_publish_always_sends (ldr_value : Int) (sensor_id sensor_position : String) :
    sendCoapData ldr_value sensor_id sensor_position =
      [Effect.coapPut COAP_URL
        (buildPayload sensor_id sensor_position (map ldr_value 0 4095 0 100))] := by
  simp [sendCoapData, isnanOfInt]

/-- Witness for C7 at a concrete reading. -/
theorem C7_publish_always_sends_witness :
    sendCoapData 1000 "1" "kitchen" =
      [Effect.coapPut COAP_URL (buildPayload "1" "kitchen" (map 1000 0 4095 0 100))] :=
  C7_publish_always_sends 1000 "1" "kitchen"

/-- C8: for every sequence of connect outcomes, whenever the reconnect
routine terminates it ends `Connected` — whatever the subscription outcomes —
having waited a fixed `delay(5000)` after each failed attempt (one delay per
failure before the first success, and every delay in the trace is 5000); and
it never gives up: on an all-failure outcome sequence it is still inside the
retry loop (`none`), for sequences of every length. -/
theorem C8_reconnect_policy (attempts : List Attempt) :
    (∀ effs s, reconnect attempts = some (effs, s) →
        s = ConnState.Connected ∧
        countDelays effs = failuresBefore attempts ∧
        ∀ n, Effect.delayMs n ∈ effs → n = 5000) ∧
    ((∀ a ∈ attempts, a.connectOk = false) → reconnect attempts = none) := by
  induction attempts with
  | nil =>
      constructor
      · intro effs s h
        simp [reconnect] at h
      · intro _
        rfl
  | cons a rest ih =>
      by_cases hc : a.connectOk
      · constructor
        · intro effs s h
          rw [reconnect, if_pos hc] at h
          obtain ⟨he, hs⟩ := Prod.mk.injEq _ _ _ _ ▸ Option.some.inj h
          refine ⟨hs.symm, ?_, ?_⟩
          · subst he
            cases hs1 : a.sub1 <;>
              simp [attemptSuccessEffects, countDelays, failuresBefore, hc, hs1]
          · intro n hn
            subst he
            cases hs1 : a.sub1 <;>
              simp [attemptSuccessEffects, hs1] at hn
        · intro hall
          exact absurd (hall a (List.mem_cons_self a rest)) (by simp [hc])
      · constructor
        · intro effs s h
          rw [reconnect, if_neg hc] at h
          cases hr : reconnect rest with
          | none => rw [hr] at h; exact absurd h (by simp)
          | some r =>
              obtain ⟨reffs, rs⟩ := r
              rw [hr] at h
              obtain ⟨he, hs⟩ := Prod.mk.injEq _ _ _ _ ▸ Option.some.inj h
              obtain ⟨hConn, hCount, hMem⟩ := ih.1 reffs rs hr
              subst he
              refine ⟨hs.symm ▸ hConn, ?_, ?_⟩
              · simp [countDelays, List.countP_cons, failuresBefore, hc] at hCount ⊢
                omega
              · intro n hn
                simp at hn
                rcases hn with h5 | hmem
                · exact h5
                · exact hMem n hmem
        · intro hall
          have hrest : ∀ a' ∈ rest, a'.connectOk = false := fun a' ha' =>
            hall a' (List.mem_cons_of_mem a ha')
          rw [reconnect, if_neg hc, ih.2 hrest]

/-- Witness for C8: one failed attempt followed by a success whose first
subscription fails; the routine ends `Connected` after exactly one 5000-tick
delay. -/
theorem C8_reconnect_policy_witness :
    ConnState.Connected = ConnState.Connected ∧
    countDelays [Effect.connectAttempt, Effect.delayMs 5000, Effect.connectAttempt,
      Effect.subscribeCall SAMPLING_PERIOD_TOPIC] =
      failuresBefore [⟨false, false, false⟩, ⟨true, false, true⟩] ∧
    ∀ n, Effect.delayMs n ∈ [Effect.connectAttempt, Effect.delayMs 5000,
      Effect.connectAttempt, Effect.subscribeCall SAMPLING_PERIOD_TOPIC] → n = 5000 :=
  (C8_reconnect_policy [⟨false, false, false⟩, ⟨true, false, true⟩]).1
    [Effect.connectAttempt, Effect.delayMs 5000, Effect.connectAttempt,
      Effect.subscribeCall SAMPLING_PERIOD_TOPIC]
    ConnState.Connected (by decide)

/-- C9: the normalization `map(raw, 0, 4095, 0, 100)` sends the endpoints and
midpoint of the native range to the claimed values: 4095 to 100, 0 to 0 and
2048 to 50. -/
theorem C9_normalization_values :
    map 4095 0 4095 0 100 = 100 ∧ map 0 0 4095 0 100 = 0 ∧
    map 2048 0 4095 0 100 = 50 := by
  decide

/-- C10: the sensor-report payload is the key-value string
`sensor_id=<id>&location=<label>&data=<value>` in exactly that key order, and
the concrete scenario (id "1", position "kitchen", normalized value 42)
produces `"sensor_id=1&location=kitchen&data=42"`. -/
theorem C10_payload_format :
    (∀ sensor_id sensor_position n, buildPayload sensor_id sensor_position n =
      "sensor_id=" ++ sensor_id ++ "&location=" ++ sensor_position ++ "&data=" ++ ldr_str n) ∧
    buildPayload "1" "kitchen" 42 = "sensor_id=1&location=kitchen&data=42" :=
  ⟨fun _ _ _ => rfl, by decide⟩

end LdrClient
